import Mathlib

/-!
Shallow embedding of `solar_optimizer.py` (household solar / tariff /
scheduling core) and verification of its specification claims.

Modelling conventions:
* Python floats become `ℚ` (the source only does exact-literal arithmetic
  and comparisons; all rate literals are compared by value).
* A `datetime.time` becomes minutes since midnight (`Nat`), which is the
  granularity every comparison in the source distinguishes.
* `random.uniform(0.8, 1.0)` becomes an explicit parameter `u : ℚ`
  (per-hour: `u : Nat → ℚ`), constrained by hypotheses where a claim
  needs the bound.
* Mutating methods become functions returning the new state together with
  the Python return value.
* `datetime.replace(hour=h)` raises `ValueError` for `h ≥ 24`; the
  scheduling loop therefore returns `Except String _`.
-/

namespace SolarOpt

/-- One tariff period, as stored in `TariffSchedule.__init__`'s dict values:
start and end as minutes-of-day, and a rate.  (The Python dict key `end`
is a Lean keyword, hence `endTime`.) -/
structure TariffPeriod where
  start : Nat
  endTime : Nat
  rate : ℚ
deriving DecidableEq

/-- The fixed period dictionary built by `TariffSchedule.__init__`, in dict
insertion order: peak, shoulder, off_peak. -/
def periods : List (String × TariffPeriod) :=
  [("peak", ⟨14 * 60, 20 * 60, 40 / 100⟩),
   ("shoulder", ⟨7 * 60, 14 * 60, 25 / 100⟩),
   ("off_peak", ⟨20 * 60, 7 * 60, 15 / 100⟩)]

/-- The configured off-peak rate constant,
`self.periods['off_peak']['rate']`. -/
def off_peak_rate : ℚ :=
  ((List.lookup "off_peak" periods).map TariffPeriod.rate).getD 0

/-- The period-matching loop of `TariffSchedule.get_current_rate`: iterate
the periods in dict order; a period whose end precedes its start wraps
midnight and matches `t ≥ start or t < end`; otherwise it matches
`start ≤ t < end`.  First match wins. -/
def findRate : List (String × TariffPeriod) → Nat → Option ℚ
  | [], _ => none
  | (_, p) :: rest, t =>
    if p.endTime < p.start then
      if p.start ≤ t ∨ t < p.endTime then some p.rate else findRate rest t
    else
      if p.start ≤ t ∧ t < p.endTime then some p.rate else findRate rest t

/-- `TariffSchedule.get_current_rate`, as a function of the wall-clock
time-of-day it reads from `datetime.now().time()` (in minutes since
midnight).  Falls back to the off-peak rate when no period matches. -/
def get_current_rate (current_time : Nat) : ℚ :=
  (findRate periods current_time).getD off_peak_rate

/-- The state of `SolarSystem`: `__init__` sets
`current_generation = 0`, `stored_energy = 0`, `max_storage = capacity_kw * 4`. -/
structure SolarSystem where
  capacity_kw : ℚ
  current_generation : ℚ
  stored_energy : ℚ
  max_storage : ℚ
deriving DecidableEq

/-- `SolarSystem.__init__`. -/
def SolarSystem.init (capacity_kw : ℚ) : SolarSystem :=
  { capacity_kw := capacity_kw
    current_generation := 0
    stored_energy := 0
    max_storage := capacity_kw * 4 }

/-- The value `SolarSystem.update_generation` computes from the hour of the
queried instant and the random draw `u` (modelling `random.uniform(0.8, 1.0)`):
`capacity_kw * (1 - abs(hour - 12) / 6) * u` during daylight `6 ≤ hour ≤ 18`,
else `0`. -/
def genValue (capacity_kw : ℚ) (hour : Nat) (u : ℚ) : ℚ :=
  if 6 ≤ hour ∧ hour ≤ 18 then
    capacity_kw * (1 - |(hour : ℚ) - 12| / 6) * u
  else 0

/-- `SolarSystem.update_generation`: stores the computed value in
`current_generation` and returns it. -/
def SolarSystem.update_generation (s : SolarSystem) (hour : Nat) (u : ℚ) :
    SolarSystem × ℚ :=
  let g := genValue s.capacity_kw hour u
  ({ s with current_generation := g }, g)

/-- `SolarSystem.store_energy`: clamp to remaining capacity, add, return the
amount actually stored. -/
def SolarSystem.store_energy (s : SolarSystem) (amount : ℚ) : SolarSystem × ℚ :=
  let available_storage := s.max_storage - s.stored_energy
  let amount_to_store := min amount available_storage
  ({ s with stored_energy := s.stored_energy + amount_to_store }, amount_to_store)

/-- `SolarSystem.use_stored_energy`: clamp to available charge, subtract,
return the amount actually used. -/
def SolarSystem.use_stored_energy (s : SolarSystem) (amount : ℚ) : SolarSystem × ℚ :=
  let amount_to_use := min amount s.stored_energy
  ({ s with stored_energy := s.stored_energy - amount_to_use }, amount_to_use)

/-- One registry entry of `EnergyOptimizer.appliance_schedule`
(the `scheduled_runs` list is initialised empty and never read or written
afterwards, so it is omitted). -/
structure Appliance where
  power_usage : ℚ
  flexible_timing : Bool
deriving DecidableEq

/-- `EnergyOptimizer.add_appliance`: Python-dict insert-or-overwrite keyed by
name (an existing key keeps its position, a new key is appended). -/
def add_appliance (apps : List (String × Appliance)) (name : String)
    (power_usage : ℚ) (flexible_timing : Bool) : List (String × Appliance) :=
  if apps.any (fun p => p.1 = name) then
    apps.map (fun p => if p.1 = name then (name, ⟨power_usage, flexible_timing⟩) else p)
  else
    apps ++ [(name, ⟨power_usage, flexible_timing⟩)]

/-- The appliance names appended to a given hour's schedule list, in registry
order: exactly the flexible appliances with
`solar_generation > power_usage or rate == off_peak_rate`. -/
def hourNames (apps : List (String × Appliance)) (solar_generation rate : ℚ) :
    List String :=
  (apps.filter (fun p =>
      p.2.flexible_timing &&
        (decide (p.2.power_usage < solar_generation) || decide (rate = off_peak_rate)))).map
    Prod.fst

/-- The loop of `EnergyOptimizer.optimize_schedule`, threading the solar
system state (mutated by `update_generation`) and the schedule dict
(modelled as an insertion-ordered association list; a key is present iff
some appliance was appended for that hour).  `hour` is the next hour index,
`n` the number of iterations left, `now` the wall-clock minutes-of-day used
by every `get_current_rate()` call, `u` the per-hour random draw.
`current_time.replace(hour=hour)` raises `ValueError` when `hour ≥ 24`. -/
def optimizeGo (apps : List (String × Appliance)) (now : Nat) (u : Nat → ℚ) :
    Nat → Nat → SolarSystem → List (Nat × List String) →
    Except String (List (Nat × List String) × SolarSystem)
  | _, 0, s, sched => .ok (sched, s)
  | hour, n + 1, s, sched =>
    if 24 ≤ hour then .error "ValueError: hour must be in 0..23"
    else
      optimizeGo apps now u (hour + 1) n (s.update_generation hour (u hour)).1
        (if hourNames apps (s.update_generation hour (u hour)).2 (get_current_rate now) = [] then
          sched
         else
          sched ++ [(hour, hourNames apps (s.update_generation hour (u hour)).2 (get_current_rate now))])

/-- `EnergyOptimizer.optimize_schedule`: returns the schedule together with
the solar system state it leaves behind (the method mutates
`self.solar_system.current_generation`). -/
def optimize_schedule (apps : List (String × Appliance)) (s : SolarSystem)
    (now : Nat) (u : Nat → ℚ) (forecast_window_hours : Nat) :
    Except String (List (Nat × List String) × SolarSystem) :=
  optimizeGo apps now u 0 forecast_window_hours s []

/-- Reading hour `h` of a returned schedule: `schedule.get(h, [])`. -/
def schedLookup (sched : List (Nat × List String)) (hour : Nat) : List String :=
  (List.lookup hour sched).getD []

/-- The association-list fragment one loop iteration of `optimize_schedule`
appends for a given hour: nothing when no appliance qualifies, else the
hour keyed to its appliance names. -/
def hourBlock (apps : List (String × Appliance)) (now : Nat) (u : Nat → ℚ)
    (cap : ℚ) (hour : Nat) : List (Nat × List String) :=
  if hourNames apps (genValue cap hour (u hour)) (get_current_rate now) = [] then []
  else [(hour, hourNames apps (genValue cap hour (u hour)) (get_current_rate now))]

/-- The schedule association list `optimize_schedule` builds over `n`
consecutive hours starting at `hour`, for a system of capacity `cap`
(proved equal to the loop's output in `optimizeGo_ok`). -/
def buildSched (apps : List (String × Appliance)) (now : Nat) (u : Nat → ℚ)
    (cap : ℚ) : Nat → Nat → List (Nat × List String)
  | _, 0 => []
  | hour, n + 1 => hourBlock apps now u cap hour ++ buildSched apps now u cap (hour + 1) n

/-- The state of `EnergyMonitor`: two parallel append-only logs. -/
structure EnergyMonitor where
  usage_history : List (Nat × ℚ)
  cost_history : List (Nat × ℚ)
deriving DecidableEq

/-- `EnergyMonitor.__init__`. -/
def EnergyMonitor.init : EnergyMonitor := ⟨[], []⟩

/-- `EnergyMonitor.record_usage`: appends one (timestamp, usage) record and
one (timestamp, cost) record. -/
def EnergyMonitor.record_usage (m : EnergyMonitor) (timestamp : Nat)
    (usage cost : ℚ) : EnergyMonitor :=
  ⟨m.usage_history ++ [(timestamp, usage)], m.cost_history ++ [(timestamp, cost)]⟩

/-- Python slicing `l[-n:]`: the last `n` entries (the whole list if shorter). -/
def lastEntries (n : Nat) (l : List (Nat × ℚ)) : List (Nat × ℚ) :=
  l.drop (l.length - n)

/-- The dict returned by `EnergyMonitor.get_daily_summary`. -/
structure DailySummary where
  total_usage : ℚ
  total_cost : ℚ
  average_rate : ℚ
deriving DecidableEq

/-- `EnergyMonitor.get_daily_summary`: `{0, 0, 0}` on an empty usage log,
else the sums over the last 24 entries of each log, with
`average_rate = total_cost / total_usage` guarded by `total_usage > 0`. -/
def EnergyMonitor.get_daily_summary (m : EnergyMonitor) : DailySummary :=
  if m.usage_history = [] then ⟨0, 0, 0⟩
  else
    let daily_usage := ((lastEntries 24 m.usage_history).map Prod.snd).sum
    let daily_cost := ((lastEntries 24 m.cost_history).map Prod.snd).sum
    ⟨daily_usage, daily_cost, if 0 < daily_usage then daily_cost / daily_usage else 0⟩

/-- A call in a storage call sequence: `store_energy` or `use_stored_energy`
with its requested amount. -/
inductive StorageOp where
  | store (amount : ℚ)
  | use (amount : ℚ)
deriving DecidableEq

/-- The requested amount of a storage call. -/
def StorageOp.amount : StorageOp → ℚ
  | .store a => a
  | .use a => a

/-- Runs a sequence of storage calls against a `SolarSystem` state,
keeping only the state (return values discarded). -/
def runStorage (s : SolarSystem) : List StorageOp → SolarSystem
  | [] => s
  | .store a :: rest => runStorage (s.store_energy a).1 rest
  | .use a :: rest => runStorage (s.use_stored_energy a).1 rest

end SolarOpt

namespace SolarOpt

/-- C5: with the default periods, the first-match lookup yields the shoulder
rate 0.25 at 13:59, the peak rate 0.40 at 14:00, and the off-peak rate 0.15
at 23:00 and at 06:59 (via the midnight-wrapping off-peak period). -/
theorem C5_default_rates :
    get_current_rate (13 * 60 + 59) = 25 / 100 ∧
    get_current_rate (14 * 60) = 40 / 100 ∧
    get_current_rate (23 * 60) = 15 / 100 ∧
    get_current_rate (6 * 60 + 59) = 15 / 100 := by
  norm_num [get_current_rate, findRate, periods, off_peak_rate, List.lookup]

/-- C6: `store_energy` returns `min(amount, max_storage - stored_energy)` and
increases `stored_energy` by exactly that value; `use_stored_energy` returns
`min(amount, stored_energy)` and decreases `stored_energy` by exactly that
value. -/
theorem C6_store_use_exact (s : SolarSystem) (amount : ℚ) :
    (s.store_energy amount).2 = min amount (s.max_storage - s.stored_energy) ∧
    (s.store_energy amount).1.stored_energy =
      s.stored_energy + (s.store_energy amount).2 ∧
    (s.use_stored_energy amount).2 = min amount s.stored_energy ∧
    (s.use_stored_energy amount).1.stored_energy =
      s.stored_energy - (s.use_stored_energy amount).2 :=
  ⟨rfl, rfl, rfl, rfl⟩

/-- C10: at the daylight boundary hours 6 and 18 the triangular factor
vanishes, so `update_generation` returns exactly 0 for every capacity and
every random draw, even though both hours lie inside the daylight range. -/
theorem C10_boundary_zero (s : SolarSystem) (u : ℚ) :
    (s.update_generation 6 u).2 = 0 ∧ (s.update_generation 18 u).2 = 0 := by
  constructor <;>
    simp [SolarSystem.update_generation, genValue] <;>
    norm_num

/-- C4: for positive capacity and a random multiplier in [0.8, 1.0],
`update_generation` returns 0 outside the daylight hours [6, 18], and inside
them returns exactly `capacity_kw * (1 - |hour - 12| / 6) * u`, a value in
[0, capacity_kw]. -/
theorem C4_generation_model (s : SolarSystem) (hcap : 0 < s.capacity_kw)
    (u : ℚ) (hu0 : 8 / 10 ≤ u) (hu1 : u ≤ 1) (hour : Nat) :
    (¬(6 ≤ hour ∧ hour ≤ 18) → (s.update_generation hour u).2 = 0) ∧
    ((6 ≤ hour ∧ hour ≤ 18) →
      (s.update_generation hour u).2 =
        s.capacity_kw * (1 - |(hour : ℚ) - 12| / 6) * u ∧
      0 ≤ (s.update_generation hour u).2 ∧
      (s.update_generation hour u).2 ≤ s.capacity_kw) := by
  constructor
  · intro h
    simp [SolarSystem.update_generation, genValue, h]
  · intro h
    have e : (s.update_generation hour u).2 =
        s.capacity_kw * (1 - |(hour : ℚ) - 12| / 6) * u := by
      simp [SolarSystem.update_generation, genValue, h]
    have h6 : (6 : ℚ) ≤ (hour : ℚ) := by exact_mod_cast h.1
    have h18 : (hour : ℚ) ≤ 18 := by exact_mod_cast h.2
    have habs : |(hour : ℚ) - 12| ≤ 6 := abs_le.mpr ⟨by linarith, by linarith⟩
    have habs0 : 0 ≤ |(hour : ℚ) - 12| := abs_nonneg _
    have hf0 : 0 ≤ 1 - |(hour : ℚ) - 12| / 6 := by linarith
    have hf1 : 1 - |(hour : ℚ) - 12| / 6 ≤ 1 := by linarith
    have hu0' : (0 : ℚ) ≤ u := by linarith
    refine ⟨e, ?_, ?_⟩
    · rw [e]
      exact mul_nonneg (mul_nonneg hcap.le hf0) hu0'
    · rw [e]
      have hfu : (1 - |(hour : ℚ) - 12| / 6) * u ≤ 1 := mul_le_one₀ hf1 hu0' hu1
      calc s.capacity_kw * (1 - |(hour : ℚ) - 12| / 6) * u
          = s.capacity_kw * ((1 - |(hour : ℚ) - 12| / 6) * u) := by ring
        _ ≤ s.capacity_kw * 1 := mul_le_mul_of_nonneg_left hfu hcap.le
        _ = s.capacity_kw := mul_one _

/-- Witness for C4 at a concrete input: capacity 10, u = 9/10, hour 3
(outside daylight, so generation is 0). -/
theorem C4_generation_model_witness :
    ((SolarSystem.init 10).update_generation 3 (9 / 10)).2 = 0 :=
  (C4_generation_model (SolarSystem.init 10) (by norm_num [SolarSystem.init])
    (9 / 10) (by norm_num) (by norm_num) 3).1 (by decide)

/-- Counterexample to C2 as stated: from the in-range initial state of
`SolarSystem(10)` (stored_energy = 0 ∈ [0, 40]), the single call
`store_energy(-1)` — a negative amount, which the claim explicitly allows —
drives `stored_energy` to −1, below 0. -/
theorem C2_counterexample :
    0 ≤ (SolarSystem.init 10).stored_energy ∧
    (SolarSystem.init 10).stored_energy ≤ (SolarSystem.init 10).max_storage ∧
    ((SolarSystem.init 10).store_energy (-1)).1.stored_energy < 0 := by
  refine ⟨by norm_num [SolarSystem.init], by norm_num [SolarSystem.init], ?_⟩
  show (SolarSystem.init 10).stored_energy +
      min (-1) ((SolarSystem.init 10).max_storage - (SolarSystem.init 10).stored_energy) < 0
  rw [min_def]
  norm_num [SolarSystem.init]

/-- C2 (amended): for every initial state with stored_energy in
[0, max_storage] and every finite sequence of store/use calls with
NONNEGATIVE amounts, the capacity bound is unchanged and stored_energy stays
within [0, max_storage] after every call (every prefix of a nonnegative
sequence is again such a sequence, so the final-state statement covers all
intermediate states). -/
theorem C2_storage_invariant (s : SolarSystem) (ops : List StorageOp) :
    (∀ op ∈ ops, 0 ≤ op.amount) → 0 ≤ s.stored_energy →
    s.stored_energy ≤ s.max_storage →
    (runStorage s ops).max_storage = s.max_storage ∧
    0 ≤ (runStorage s ops).stored_energy ∧
    (runStorage s ops).stored_energy ≤ s.max_storage := by
  induction ops generalizing s with
  | nil => exact fun _ h0 h1 => ⟨rfl, h0, h1⟩
  | cons op rest ih =>
    intro hops h0 h1
    have hop : 0 ≤ op.amount := hops op (List.mem_cons_self _ _)
    have hrest : ∀ o ∈ rest, 0 ≤ o.amount := fun o ho =>
      hops o (List.mem_cons_of_mem _ ho)
    cases op with
    | store a =>
      have hmin0 : 0 ≤ min a (s.max_storage - s.stored_energy) :=
        le_min hop (by linarith)
      have hminr : min a (s.max_storage - s.stored_energy) ≤
          s.max_storage - s.stored_energy := min_le_right _ _
      have h0' : 0 ≤ (s.store_energy a).1.stored_energy := by
        show 0 ≤ s.stored_energy + min a (s.max_storage - s.stored_energy)
        linarith
      have h1' : (s.store_energy a).1.stored_energy ≤
          (s.store_energy a).1.max_storage := by
        show s.stored_energy + min a (s.max_storage - s.stored_energy) ≤
          s.max_storage
        linarith
      obtain ⟨e, g0, g1⟩ := ih (s.store_energy a).1 hrest h0' h1'
      exact ⟨e, g0, g1⟩
    | use a =>
      have hmin0 : 0 ≤ min a s.stored_energy := le_min hop h0
      have hminl : min a s.stored_energy ≤ s.stored_energy := min_le_right _ _
      have h0' : 0 ≤ (s.use_stored_energy a).1.stored_energy := by
        show 0 ≤ s.stored_energy - min a s.stored_energy
        linarith
      have h1' : (s.use_stored_energy a).1.stored_energy ≤
          (s.use_stored_energy a).1.max_storage := by
        show s.stored_energy - min a s.stored_energy ≤ s.max_storage
        linarith
      obtain ⟨e, g0, g1⟩ := ih (s.use_stored_energy a).1 hrest h0' h1'
      exact ⟨e, g0, g1⟩

/-- Witness for the amended C2: capacity 10 (max_storage 40), calls
store(100) then use(5); the state stays within [0, 40]. -/
theorem C2_storage_invariant_witness :
    (runStorage (SolarSystem.init 10) [StorageOp.store 100, StorageOp.use 5]).max_storage =
      (SolarSystem.init 10).max_storage ∧
    0 ≤ (runStorage (SolarSystem.init 10)
        [StorageOp.store 100, StorageOp.use 5]).stored_energy ∧
    (runStorage (SolarSystem.init 10)
        [StorageOp.store 100, StorageOp.use 5]).stored_energy ≤
      (SolarSystem.init 10).max_storage :=
  C2_storage_invariant (SolarSystem.init 10) [StorageOp.store 100, StorageOp.use 5]
    (by intro op hop
        simp only [List.mem_cons, List.not_mem_nil, or_false] at hop
        rcases hop with rfl | rfl
        · norm_num [StorageOp.amount]
        · norm_num [StorageOp.amount])
    (by norm_num [SolarSystem.init]) (by norm_num [SolarSystem.init])

/-- C7: `get_daily_summary` returns {0, 0, 0} on an empty usage log; on a
non-empty log it returns the sums over the most recent 24 usage and cost
entries with `average_rate = total_cost / total_usage` guarded by
`total_usage > 0`; after recording exactly one entry with usage 2 and
cost 1, `average_rate` is 0.5. -/
theorem C7_daily_summary :
    EnergyMonitor.get_daily_summary EnergyMonitor.init = ⟨0, 0, 0⟩ ∧
    (∀ m : EnergyMonitor, m.usage_history ≠ [] →
      EnergyMonitor.get_daily_summary m =
        ⟨((lastEntries 24 m.usage_history).map Prod.snd).sum,
         ((lastEntries 24 m.cost_history).map Prod.snd).sum,
         if 0 < ((lastEntries 24 m.usage_history).map Prod.snd).sum then
           ((lastEntries 24 m.cost_history).map Prod.snd).sum /
             ((lastEntries 24 m.usage_history).map Prod.snd).sum
         else 0⟩) ∧
    (EnergyMonitor.get_daily_summary
        (EnergyMonitor.record_usage EnergyMonitor.init 0 2 1)).average_rate = 1 / 2 := by
  refine ⟨rfl, ?_, ?_⟩
  · intro m hm
    simp [EnergyMonitor.get_daily_summary, hm]
  · norm_num [EnergyMonitor.get_daily_summary, EnergyMonitor.record_usage,
      EnergyMonitor.init, lastEntries]

/-- Witness for C7's non-empty-log clause at the one-entry log
{usage = 2, cost = 1}. -/
theorem C7_daily_summary_witness :
    EnergyMonitor.get_daily_summary (EnergyMonitor.record_usage EnergyMonitor.init 0 2 1) =
      ⟨2, 1, 1 / 2⟩ := by
  have h := C7_daily_summary.2.1 (EnergyMonitor.record_usage EnergyMonitor.init 0 2 1)
    (by simp [EnergyMonitor.record_usage, EnergyMonitor.init])
  rw [h]
  norm_num [lastEntries, EnergyMonitor.record_usage, EnergyMonitor.init]

/-- Key comparison made by the dict lookup in `off_peak_rate`. -/
lemma beq_off_peak_peak : ("off_peak" == "peak") = false := rfl

/-- Key comparison made by the dict lookup in `off_peak_rate`. -/
lemma beq_off_peak_shoulder : ("off_peak" == "shoulder") = false := rfl

/-- Key comparison made by the dict lookup in `off_peak_rate`. -/
lemma beq_off_peak_self : ("off_peak" == "off_peak") = true := rfl

/-- The configured off-peak rate constant evaluates to 0.15. -/
lemma off_peak_rate_eq : off_peak_rate = 3 / 20 := by
  norm_num [off_peak_rate, periods, List.lookup, beq_off_peak_peak, beq_off_peak_shoulder,
    beq_off_peak_self]

/-- The value `update_generation` returns is `genValue` of the capacity. -/
lemma update_generation_snd (s : SolarSystem) (hour : Nat) (u : ℚ) :
    (s.update_generation hour u).2 = genValue s.capacity_kw hour u := rfl

/-- `update_generation` does not change the capacity. -/
lemma update_generation_capacity (s : SolarSystem) (hour : Nat) (u : ℚ) :
    (s.update_generation hour u).1.capacity_kw = s.capacity_kw := rfl

/-- The conditional append the loop body performs equals appending
`hourBlock`. -/
lemma ifNames_append (apps : List (String × Appliance)) (now : Nat) (u : Nat → ℚ)
    (cap : ℚ) (hour : Nat) (sched : List (Nat × List String)) :
    (if hourNames apps (genValue cap hour (u hour)) (get_current_rate now) = [] then sched
     else sched ++ [(hour, hourNames apps (genValue cap hour (u hour)) (get_current_rate now))]) =
      sched ++ hourBlock apps now u cap hour := by
  unfold hourBlock
  by_cases hn : hourNames apps (genValue cap hour (u hour)) (get_current_rate now) = []
  · simp [hn]
  · simp [hn]

/-- Characterization of the scheduling loop on an in-range window: it
succeeds and returns the accumulated schedule followed by `buildSched`,
with the capacity unchanged. -/
lemma optimizeGo_ok (apps : List (String × Appliance)) (now : Nat) (u : Nat → ℚ) :
    ∀ (n hour : Nat) (s : SolarSystem) (sched : List (Nat × List String)),
      hour + n ≤ 24 →
      ∃ s', optimizeGo apps now u hour n s sched =
          .ok (sched ++ buildSched apps now u s.capacity_kw hour n, s') ∧
        s'.capacity_kw = s.capacity_kw := by
  intro n
  induction n with
  | zero =>
    intro hour s sched _
    exact ⟨s, by simp [optimizeGo, buildSched], rfl⟩
  | succ n ih =>
    intro hour s sched hle
    have hlt : ¬ 24 ≤ hour := by omega
    obtain ⟨s', hs', hcap⟩ := ih (hour + 1) (s.update_generation hour (u hour)).1
      (sched ++ hourBlock apps now u s.capacity_kw hour) (by omega)
    refine ⟨s', ?_, hcap⟩
    simp only [optimizeGo, if_neg hlt, update_generation_snd, ifNames_append]
    rw [hs']
    simp only [update_generation_capacity]
    simp [buildSched, List.append_assoc]

/-- The scheduling loop fails with `ValueError` as soon as the hour index
reaches 24 while iterations remain. -/
lemma optimizeGo_err (apps : List (String × Appliance)) (now : Nat) (u : Nat → ℚ) :
    ∀ (n hour : Nat) (s : SolarSystem) (sched : List (Nat × List String)),
      hour ≤ 24 → 24 < hour + n →
      optimizeGo apps now u hour n s sched = .error "ValueError: hour must be in 0..23" := by
  intro n
  induction n with
  | zero => intro hour s sched h1 h2; omega
  | succ n ih =>
    intro hour s sched h1 h2
    by_cases h24 : 24 ≤ hour
    · simp only [optimizeGo, if_pos h24]
    · simp only [optimizeGo, if_neg h24]
      exact ih (hour + 1) _ _ (by omega) (by omega)

/-- All keys of `buildSched apps now u cap hour n` are at least `hour`. -/
lemma lookup_buildSched_of_lt (apps : List (String × Appliance)) (now : Nat)
    (u : Nat → ℚ) (cap : ℚ) :
    ∀ (n hour h : Nat), h < hour →
      List.lookup h (buildSched apps now u cap hour n) = none := by
  intro n
  induction n with
  | zero => intro hour h _; simp [buildSched]
  | succ n ih =>
    intro hour h hh
    have hb : (h == hour) = false := by
      simp only [beq_eq_false_iff_ne, ne_eq]
      omega
    simp only [buildSched, hourBlock]
    by_cases hn : hourNames apps (genValue cap hour (u hour)) (get_current_rate now) = []
    · rw [if_pos hn]
      simpa using ih (hour + 1) h (by omega)
    · rw [if_neg hn]
      simp only [List.cons_append, List.nil_append, List.lookup, hb]
      exact ih (hour + 1) h (by omega)

/-- Reading hour `h` of the built schedule (for `h` inside the window) gives
exactly the qualifying appliance names for hour `h`. -/
lemma schedLookup_buildSched (apps : List (String × Appliance)) (now : Nat)
    (u : Nat → ℚ) (cap : ℚ) :
    ∀ (n hour h : Nat), hour ≤ h → h < hour + n →
      schedLookup (buildSched apps now u cap hour n) h =
        hourNames apps (genValue cap h (u h)) (get_current_rate now) := by
  intro n
  induction n with
  | zero => intro hour h h1 h2; omega
  | succ n ih =>
    intro hour h h1 h2
    by_cases he : h = hour
    · subst he
      simp only [buildSched, hourBlock]
      by_cases hn : hourNames apps (genValue cap h (u h)) (get_current_rate now) = []
      · rw [if_pos hn, List.nil_append]
        unfold schedLookup
        rw [lookup_buildSched_of_lt apps now u cap n (h + 1) h (by omega)]
        simp [hn]
      · rw [if_neg hn]
        unfold schedLookup
        simp [List.lookup]
    · have hlt : hour < h := by omega
      have hb : (h == hour) = false := by
        simp only [beq_eq_false_iff_ne, ne_eq]
        omega
      simp only [buildSched, hourBlock]
      by_cases hn : hourNames apps (genValue cap hour (u hour)) (get_current_rate now) = []
      · rw [if_pos hn, List.nil_append]
        exact ih (hour + 1) h (by omega) (by omega)
      · rw [if_neg hn]
        unfold schedLookup
        simp only [List.cons_append, List.nil_append, List.lookup, hb]
        exact ih (hour + 1) h (by omega) (by omega)

/-- In a registry with pairwise-distinct names (the Python-dict invariant),
a name determines its appliance entry. -/
lemma registry_key_inj (name : String) (a b : Appliance) :
    ∀ apps : List (String × Appliance), (apps.map Prod.fst).Nodup →
      (name, a) ∈ apps → (name, b) ∈ apps → a = b := by
  intro apps
  induction apps with
  | nil => intro _ ha; cases ha
  | cons p rest ih =>
    intro hnd ha hb
    simp only [List.map_cons, List.nodup_cons] at hnd
    rcases List.mem_cons.mp ha with rfl | ha'
    · rcases List.mem_cons.mp hb with hb0 | hb'
      · exact ((Prod.mk.injEq _ _ _ _).mp hb0.symm).2
      · exact absurd (List.mem_map_of_mem Prod.fst hb') hnd.1
    · rcases List.mem_cons.mp hb with rfl | hb'
      · exact absurd (List.mem_map_of_mem Prod.fst ha') hnd.1
      · exact ih hnd.2 ha' hb'

/-- Membership in an hour's appliance list: a registered appliance appears
iff it is flexible and either the generation exceeds its power draw or the
rate equals the off-peak constant. -/
lemma mem_hourNames (apps : List (String × Appliance))
    (hnd : (apps.map Prod.fst).Nodup) (name : String) (a : Appliance)
    (ha : (name, a) ∈ apps) (g r : ℚ) :
    name ∈ hourNames apps g r ↔
      (a.flexible_timing = true ∧ (a.power_usage < g ∨ r = off_peak_rate)) := by
  unfold hourNames
  constructor
  · intro hm
    obtain ⟨p, hp, hpe⟩ := List.mem_map.mp hm
    obtain ⟨hpa, hpred⟩ := List.mem_filter.mp hp
    obtain ⟨x, y⟩ := p
    subst hpe
    have hya : y = a := registry_key_inj x y a apps hnd hpa ha
    subst hya
    simpa [Bool.and_eq_true, Bool.or_eq_true, decide_eq_true_eq] using hpred
  · rintro ⟨hflex, hcond⟩
    refine List.mem_map.mpr ⟨(name, a), List.mem_filter.mpr ⟨ha, ?_⟩, rfl⟩
    simp only [hflex, Bool.true_and, Bool.or_eq_true, decide_eq_true_eq]
    exact hcond

/-- C1: for every registry (with the dict invariant of distinct names),
window of at most 24 hours, and hour h inside the window, a registered
appliance appears in hour h's list iff it is flexible and either the solar
generation computed for hour h strictly exceeds its power draw or the
tariff rate the loop used equals the configured off-peak constant; in
particular a non-flexible appliance never appears. -/
theorem C1_schedule_membership (apps : List (String × Appliance))
    (hnd : (apps.map Prod.fst).Nodup) (s : SolarSystem) (now : Nat)
    (u : Nat → ℚ) (w : Nat) (hw : w ≤ 24) (h : Nat) (hh : h < w)
    (name : String) (a : Appliance) (ha : (name, a) ∈ apps) :
    ∃ sched s', optimize_schedule apps s now u w = .ok (sched, s') ∧
      (name ∈ schedLookup sched h ↔
        (a.flexible_timing = true ∧
          (a.power_usage < genValue s.capacity_kw h (u h) ∨
            get_current_rate now = off_peak_rate))) := by
  obtain ⟨s', hs', _⟩ := optimizeGo_ok apps now u w 0 s [] (by omega)
  refine ⟨buildSched apps now u s.capacity_kw 0 w, s', ?_, ?_⟩
  · unfold optimize_schedule
    simpa using hs'
  · rw [schedLookup_buildSched apps now u s.capacity_kw w 0 h (Nat.zero_le _) (by omega)]
    exact mem_hourNames apps hnd name a ha _ _

/-- Witness for C1 at a concrete input: one flexible washing machine of
1.2 kW, capacity 10, invoked at midnight (off-peak), window 24, hour 0. -/
theorem C1_schedule_membership_witness :
    ∃ sched s',
      optimize_schedule [("wm", ⟨12 / 10, true⟩)] (SolarSystem.init 10) 0
          (fun _ => 9 / 10) 24 = .ok (sched, s') ∧
      ("wm" ∈ schedLookup sched 0 ↔
        (Appliance.flexible_timing ⟨12 / 10, true⟩ = true ∧
          (Appliance.power_usage ⟨12 / 10, true⟩ <
              genValue (SolarSystem.init 10).capacity_kw 0 ((fun _ => (9 : ℚ) / 10) 0) ∨
            get_current_rate 0 = off_peak_rate))) :=
  C1_schedule_membership [("wm", ⟨12 / 10, true⟩)] (by simp) (SolarSystem.init 10) 0
    (fun _ => 9 / 10) 24 (by omega) 0 (by omega) "wm" ⟨12 / 10, true⟩ (by simp)

/-- C9: `optimize_schedule` succeeds for every window of at most 24 hours,
and fails with the `ValueError` from the synthetic time-slot construction
for every window above 24, producing no schedule at all. -/
theorem C9_window_bounds (apps : List (String × Appliance)) (s : SolarSystem)
    (now : Nat) (u : Nat → ℚ) (w : Nat) :
    (w ≤ 24 → ∃ p, optimize_schedule apps s now u w = .ok p) ∧
    (24 < w →
      optimize_schedule apps s now u w = .error "ValueError: hour must be in 0..23") := by
  constructor
  · intro hw
    obtain ⟨s', hs', _⟩ := optimizeGo_ok apps now u w 0 s [] (by omega)
    exact ⟨_, hs'⟩
  · intro hw
    exact optimizeGo_err apps now u w 0 s [] (by omega) (by omega)

/-- Witness for C9: with an empty registry and capacity 10, a 24-hour window
succeeds and a 25-hour window raises. -/
theorem C9_window_bounds_witness :
    (∃ p, optimize_schedule [] (SolarSystem.init 10) 0 (fun _ => 9 / 10) 24 = .ok p) ∧
    optimize_schedule [] (SolarSystem.init 10) 0 (fun _ => 9 / 10) 25 =
      .error "ValueError: hour must be in 0..23" :=
  ⟨(C9_window_bounds [] (SolarSystem.init 10) 0 (fun _ => 9 / 10) 24).1 (by omega),
   (C9_window_bounds [] (SolarSystem.init 10) 0 (fun _ => 9 / 10) 25).2 (by omega)⟩

/-- C3 is violated by the code: `optimize_schedule` calls
`get_current_rate()` with no argument, so every hour of the window is
decided with the rate at the wall-clock invocation time, not the rate of
the period containing that hour.  Concretely: invoked at 15:00 (peak,
0.40) with one flexible 1 kW appliance, hour 23 gets an empty list — yet
the rate of the period containing 23:00 is the off-peak constant, under
which hour 23's list would be exactly that appliance. -/
theorem C3_per_hour_rate_ignored :
    ∃ sched s',
      optimize_schedule [("pump", ⟨1, true⟩)] (SolarSystem.init 10) 900
          (fun _ => 9 / 10) 24 = .ok (sched, s') ∧
      schedLookup sched 23 = [] ∧
      get_current_rate (23 * 60) = off_peak_rate ∧
      hourNames [("pump", ⟨1, true⟩)]
          (genValue (SolarSystem.init 10).capacity_kw 23 ((fun _ => (9 : ℚ) / 10) 23))
          (get_current_rate (23 * 60)) = ["pump"] := by
  obtain ⟨s', hs', _⟩ := optimizeGo_ok [("pump", ⟨1, true⟩)] 900 (fun _ => 9 / 10)
    24 0 (SolarSystem.init 10) [] (by omega)
  refine ⟨buildSched [("pump", ⟨1, true⟩)] 900 (fun _ => 9 / 10)
      (SolarSystem.init 10).capacity_kw 0 24, s', ?_, ?_, ?_, ?_⟩
  · unfold optimize_schedule
    simpa using hs'
  · rw [schedLookup_buildSched _ 900 _ _ 24 0 23 (by omega) (by omega)]
    norm_num [hourNames, genValue, get_current_rate, findRate, periods, off_peak_rate_eq,
      List.filter, SolarSystem.init]
  · norm_num [get_current_rate, findRate, periods, off_peak_rate_eq]
  · norm_num [hourNames, genValue, get_current_rate, findRate, periods, off_peak_rate_eq,
      List.filter, SolarSystem.init]

/-- Counterexample to C8 as stated: two runs with the same window, the same
registry, the same initial system state and the same seeded generation
draws, but invoked at different wall-clock times (15:00 peak vs 21:40
off-peak), produce different schedules — the claim fixes only the
generation input and registry, not the invocation time the tariff reading
depends on. -/
theorem C8_counterexample :
    ∃ p q,
      optimize_schedule [("wm", ⟨12 / 10, true⟩)] (SolarSystem.init 10) 900
          (fun _ => 9 / 10) 1 = .ok p ∧
      optimize_schedule [("wm", ⟨12 / 10, true⟩)] (SolarSystem.init 10) 1300
          (fun _ => 9 / 10) 1 = .ok q ∧
      p.1 ≠ q.1 := by
  obtain ⟨s1, hs1, _⟩ := optimizeGo_ok [("wm", ⟨12 / 10, true⟩)] 900 (fun _ => 9 / 10)
    1 0 (SolarSystem.init 10) [] (by omega)
  obtain ⟨s2, hs2, _⟩ := optimizeGo_ok [("wm", ⟨12 / 10, true⟩)] 1300 (fun _ => 9 / 10)
    1 0 (SolarSystem.init 10) [] (by omega)
  refine ⟨_, _, by unfold optimize_schedule; exact hs1, by unfold optimize_schedule; exact hs2, ?_⟩
  norm_num [buildSched, hourBlock, hourNames, genValue, get_current_rate, findRate,
    periods, off_peak_rate_eq, List.filter, SolarSystem.init]

/-- C8 (amended): two calls of `optimize_schedule` with the same window, the
same registry, the same seeded generation input AND the same invocation
wall-clock time yield the same schedule — even when the second call starts
from the solar-system state the first call mutated. -/
theorem C8_rerun_deterministic (apps : List (String × Appliance)) (s : SolarSystem)
    (now : Nat) (u : Nat → ℚ) (w : Nat) (sched : List (Nat × List String))
    (s' : SolarSystem)
    (hrun : optimize_schedule apps s now u w = .ok (sched, s')) :
    ∃ s'', optimize_schedule apps s' now u w = .ok (sched, s'') := by
  by_cases hw : w ≤ 24
  · obtain ⟨t, ht, htc⟩ := optimizeGo_ok apps now u w 0 s [] (by omega)
    obtain ⟨t', ht', _⟩ := optimizeGo_ok apps now u w 0 s' [] (by omega)
    unfold optimize_schedule at hrun
    rw [hrun] at ht
    have h2 : (sched, s') = ([] ++ buildSched apps now u s.capacity_kw 0 w, t) := by
      simpa using ht
    have hsched : sched = buildSched apps now u s.capacity_kw 0 w := by
      simpa using congrArg Prod.fst h2
    have hst : s' = t := congrArg Prod.snd h2
    have hcap2 : s'.capacity_kw = s.capacity_kw := by rw [hst]; exact htc
    refine ⟨t', ?_⟩
    unfold optimize_schedule
    rw [ht']
    simp [hcap2, hsched]
  · exfalso
    unfold optimize_schedule at hrun
    rw [optimizeGo_err apps now u w 0 s [] (by omega) (by omega)] at hrun
    cases hrun

/-- Witness for the amended C8: concrete back-to-back runs at 21:40 with
one flexible appliance yield the same schedule. -/
theorem C8_rerun_deterministic_witness :
    ∃ sched s' s'',
      optimize_schedule [("wm", ⟨12 / 10, true⟩)] (SolarSystem.init 10) 1300
          (fun _ => 9 / 10) 1 = .ok (sched, s') ∧
      optimize_schedule [("wm", ⟨12 / 10, true⟩)] s' 1300
          (fun _ => 9 / 10) 1 = .ok (sched, s'') := by
  obtain ⟨t, ht, _⟩ := optimizeGo_ok [("wm", ⟨12 / 10, true⟩)] 1300 (fun _ => 9 / 10)
    1 0 (SolarSystem.init 10) [] (by omega)
  have hrun : optimize_schedule [("wm", ⟨12 / 10, true⟩)] (SolarSystem.init 10) 1300
      (fun _ => 9 / 10) 1 =
      .ok ([] ++ buildSched [("wm", ⟨12 / 10, true⟩)] 1300 (fun _ => 9 / 10)
        (SolarSystem.init 10).capacity_kw 0 1, t) := by
    unfold optimize_schedule
    exact ht
  obtain ⟨s'', h2⟩ := C8_rerun_deterministic _ _ _ _ _ _ _ hrun
  exact ⟨_, t, s'', hrun, h2⟩

end SolarOpt
